import Mathlib

/-!
Shallow embedding of the `python-fm-playground` backend (FastAPI + AWS Bedrock proxy).

Python strings are embedded as Lean `String`s.  The handful of Python string
operations the backend uses (`str.strip`, `str.startswith`, `str.split('\n')`,
`'\n'.join`, `str.replace(pat, '')`, `s[1:]`) are given structural Lean
implementations over `String.data` so that every definition evaluates inside
the kernel.  Python dict/list accesses on upstream JSON bodies are embedded as
typed structures with `Option` fields (a missing key reads as `none`, raising
`KeyError`; indexing an empty list raises `IndexError`).  Upstream network
calls are embedded as oracle parameters supplying the outcome of the call, so
that route/service control flow is a pure function of that outcome.
-/

namespace FMPlayground

/-- Python's default `str.strip()` whitespace set (the ASCII part: space, tab,
newline, carriage return, vertical tab, form feed). -/
def isPySpace (c : Char) : Bool :=
  c == ' ' || c == '\t' || c == '\n' || c == '\r' || c == '\x0b' || c == '\x0c'

/-- Embedding of Python `s.strip()`: remove leading and trailing whitespace. -/
def pyStrip (s : String) : String :=
  ⟨((s.data.dropWhile isPySpace).reverse.dropWhile isPySpace).reverse⟩

/-- Does the pattern (first argument) occur at the head of the second list? -/
def matchesAt : List Char → List Char → Bool
  | [], _ => true
  | _ :: _, [] => false
  | p :: ps, c :: cs => p == c && matchesAt ps cs

/-- Embedding of Python `s.startswith(p)`. -/
def pyStartsWith (s p : String) : Bool := matchesAt p.data s.data

/-- Split a character list on the newline character, keeping empty pieces,
exactly like Python `s.split('\n')` (which yields `[""]` on the empty string). -/
def splitNlChars (s : List Char) : List (List Char) :=
  s.foldr (fun c acc =>
    if c == '\n' then [] :: acc
    else match acc with
      | a :: rest => (c :: a) :: rest
      | [] => [[c]]) [[]]

/-- Embedding of Python `s.split('\n')`. -/
def pySplitNl (s : String) : List String := (splitNlChars s.data).map String.mk

/-- Join character lists with a newline between consecutive pieces. -/
def joinNlChars : List (List Char) → List Char
  | [] => []
  | [x] => x
  | x :: y :: rest => x ++ '\n' :: joinNlChars (y :: rest)

/-- Embedding of Python `'\n'.join(parts)`. -/
def pyJoinNl (parts : List String) : String := ⟨joinNlChars (parts.map String.data)⟩

/-- Fuel-indexed left-to-right deletion of every non-overlapping occurrence of
`pat`.  On a match the scan continues after the matched region, exactly like
Python `s.replace(pat, '')`.  The fuel is the length of the scanned list, which
bounds the number of steps. -/
def replaceAllGo (pat : List Char) : Nat → List Char → List Char
  | 0, s => s
  | _ + 1, [] => []
  | fuel + 1, c :: rest =>
    if matchesAt pat (c :: rest) then replaceAllGo pat fuel (List.drop pat.length (c :: rest))
    else c :: replaceAllGo pat fuel rest

/-- Embedding of Python `s.replace(pat, '')` for a non-empty pattern (the one
call site uses the literal pattern `'Title:'`). -/
def pyRemoveAll (s pat : String) : String :=
  if pat.data = [] then s else ⟨replaceAllGo pat.data s.data.length s.data⟩

/-- Embedding of Python `s[1:]`: drop the first character. -/
def pyTail (s : String) : String := ⟨s.data.drop 1⟩

/-- The string `sub` occurs verbatim somewhere inside `s`. -/
def containsStr (s sub : String) : Prop := ∃ p q, s = p ++ (sub ++ q)

theorem containsStr_of_eq {s sub : String} (p q : String) (h : s = p ++ (sub ++ q)) :
    containsStr s sub := ⟨p, q, h⟩

theorem containsStr_self (s : String) : containsStr s s := ⟨"", "", by simp⟩

theorem length_of_containsStr {s sub : String} (h : containsStr s sub) :
    sub.length ≤ s.length := by
  obtain ⟨p, q, rfl⟩ := h
  simp only [String.length_append]
  omega

/-! ## Error model

`ClientError` raised by the boto3/botocore binding carries a structured
response with `e.response["Error"]["Code"]` and `["Message"]`; `str(e)` is
botocore's rendering `An error occurred (Code) when calling the Op operation:
Message`.  Any other Python exception carries a type name and a message, with
`str(e)` equal to the message. -/

/-- An error reaching a route boundary: either a botocore `ClientError`
(provider error code, provider message, operation name) or any other Python
exception (type name, message). -/
inductive UpstreamError where
  | clientError (code msg opName : String)
  | pyExc (typeName msg : String)
deriving DecidableEq, Repr

/-- botocore's `str(ClientError)` format (behaviour of the external binding). -/
def clientErrorStr (code opName msg : String) : String :=
  "An error occurred (" ++ code ++ ") when calling the " ++ opName ++ " operation: " ++ msg

/-- Python `str(e)` for the errors of the model. -/
def pyStrOfError : UpstreamError → String
  | .clientError code msg opName => clientErrorStr code opName msg
  | .pyExc _ msg => msg

/-- The original diagnostic message carried by the error
(`e.response["Error"]["Message"]` for a `ClientError`, `str(e)` otherwise). -/
def diagMsg : UpstreamError → String
  | .clientError _ msg _ => msg
  | .pyExc _ msg => msg

/-- An externally visible HTTP failure (FastAPI `HTTPException`): status code
plus detail text. -/
structure HttpError where
  status : Nat
  detail : String
deriving DecidableEq, Repr

/-- Error classification of `chat_playground/routes.py` (`invoke`, the two
`except` clauses): `AccessDeniedException` becomes 403 with the provider
message; any other `ClientError` becomes 500 with `"code: message"`; any other
exception becomes 500 with `"TypeName: message"`. -/
def chatClassify : UpstreamError → HttpError
  | .clientError code msg _ =>
    if code == "AccessDeniedException" then ⟨403, msg⟩
    else ⟨500, code ++ ": " ++ msg⟩
  | .pyExc typeName msg => ⟨500, typeName ++ ": " ++ msg⟩

/-- Error classification of `text_playground/routes.py` (`invoke`): identical
shape to the chat route (the route additionally re-raises `HTTPException`
unchanged, which only affects its own 400 rejection, handled separately in the
dispatcher model below). -/
def textClassify : UpstreamError → HttpError
  | .clientError code msg _ =>
    if code == "AccessDeniedException" then ⟨403, msg⟩
    else ⟨500, code ++ ": " ++ msg⟩
  | .pyExc typeName msg => ⟨500, typeName ++ ": " ++ msg⟩

/-- Error classification of `image_playground/routes.py` (`invoke`). -/
def imageClassify : UpstreamError → HttpError
  | .clientError code msg _ =>
    if code == "AccessDeniedException" then ⟨403, msg⟩
    else ⟨500, code ++ ": " ++ msg⟩
  | .pyExc typeName msg => ⟨500, typeName ++ ": " ++ msg⟩

/-- Error classification of `foundation_models/routes.py`
(`list_foundation_models` and `get_foundation_model_details` share it). -/
def foundationModelsClassify : UpstreamError → HttpError
  | .clientError code msg _ =>
    if code == "AccessDeniedException" then ⟨403, msg⟩
    else ⟨500, code ++ ": " ++ msg⟩
  | .pyExc typeName msg => ⟨500, typeName ++ ": " ++ msg⟩

/-- Error classification of `story_playground/routes.py` (`generate_story`):
`AccessDeniedException` becomes 403 with the fixed text
`"Access denied to AWS Bedrock"`; any other `ClientError` becomes 500 with
`str(e)`; any other exception becomes 500 with `str(e)`. -/
def storyClassify : UpstreamError → HttpError
  | .clientError code msg opName =>
    if code == "AccessDeniedException" then ⟨403, "Access denied to AWS Bedrock"⟩
    else ⟨500, pyStrOfError (.clientError code msg opName)⟩
  | .pyExc typeName msg => ⟨500, pyStrOfError (.pyExc typeName msg)⟩

/-- Modelled from the spec: the Error Classifier policy as section 4.3 words it
(first match wins): `AccessDeniedException` maps to Forbidden 403,
`ResourceNotFoundException` maps to NotFound 404, any other provider code maps
to Internal 500 with code and message surfaced, and an unrecognized exception
maps to Internal 500 with type name and message surfaced.  Kept only for
refinement comparison against the classifiers taken from the code. -/
def specClassify : UpstreamError → HttpError
  | .clientError code msg _ =>
    if code == "AccessDeniedException" then ⟨403, msg⟩
    else if code == "ResourceNotFoundException" then ⟨404, msg⟩
    else ⟨500, code ++ ": " ++ msg⟩
  | .pyExc typeName msg => ⟨500, typeName ++ ": " ++ msg⟩

/-! ## Text playground dispatch (`text_playground/routes.py`)

The route matches the path parameter `modelId` against two literal model
identifiers; on a match it calls exactly one of `claude.invoke` /
`jurassic2.invoke`, otherwise it raises `HTTPException(400, ...)` before any
adapter (and hence any network call) runs.  The adapter invocations are
embedded as an oracle `binding` giving the outcome of each adapter's call; the
model also returns the list of adapters that were invoked. -/

/-- The Claude 3.5 Sonnet identifier matched by `text_playground/routes.py`. -/
def claudeTextModelId : String := "us.anthropic.claude-3-5-sonnet-20241022-v2:0"

/-- The Jurassic-2 identifier matched by `text_playground/routes.py`. -/
def jurassic2ModelId : String := "ai21.j2-mid-v1"

/-- The two adapters of the text playground. -/
inductive TextAdapter where
  | claude
  | jurassic2
deriving DecidableEq, Repr

/-- Route boundary handling of an adapter call outcome: a successful completion
is returned, an error is converted by the route's classifier. -/
def applyClassify (classify : UpstreamError → HttpError) :
    Except UpstreamError String → Except HttpError String
  | .ok s => .ok s
  | .error e => .error (classify e)

/-- Embedding of the `invoke` handler of `text_playground/routes.py`: dispatch
on `modelId`, call the selected adapter through the `binding` oracle, classify
failures; an unknown `modelId` yields `HTTPException(400, "Unsupported model:
...")`, re-raised unchanged by the `except HTTPException` clause.  The second
component records which adapters were invoked. -/
def textInvokeRoute (modelId : String)
    (binding : TextAdapter → Except UpstreamError String) :
    Except HttpError String × List TextAdapter :=
  if modelId == claudeTextModelId then
    (applyClassify textClassify (binding .claude), [.claude])
  else if modelId == jurassic2ModelId then
    (applyClassify textClassify (binding .jurassic2), [.jurassic2])
  else
    (.error ⟨400, "Unsupported model: " ++ modelId⟩, [])

/-! ## Wire-response parsing (`chat_playground/services.py`,
`image_playground/services.py`, `text_playground/jurassic2.py`)

The services read nested JSON fields with plain dict/list indexing.  A missing
key raises `KeyError`, indexing an empty list raises `IndexError`; either way
the service re-raises and the route reports 500.  The structures below model
exactly the fields the code touches, with `Option` marking keys that may be
absent from the upstream body. -/

/-- The unstructured Python error raised by a shape mismatch while reading the
upstream JSON body (the realization of the spec's `MalformedUpstreamResponse`
in this code base). -/
inductive PyFieldError where
  | keyError (key : String)
  | indexError (idx : Nat)
deriving DecidableEq, Repr

/-- One element of the `content` array of a chat-style wire response. -/
structure ChatContentBlock where
  text : Option String
deriving DecidableEq, Repr

/-- The chat-style wire response body: `content` may be missing. -/
structure ChatWireResponse where
  content : Option (List ChatContentBlock)
deriving DecidableEq, Repr

/-- Embedding of `response_body['content'][0]['text']` of
`chat_playground/services.py` (the same access appears in
`text_playground/claude.py`). -/
def parseChatResponse (w : ChatWireResponse) : Except PyFieldError String :=
  match w.content with
  | none => .error (.keyError "content")
  | some [] => .error (.indexError 0)
  | some (b :: _) =>
    match b.text with
    | none => .error (.keyError "text")
    | some t => .ok t

/-- One element of the `artifacts` array of an image wire response. -/
structure ImageArtifact where
  base64 : Option String
deriving DecidableEq, Repr

/-- The image wire response body: `artifacts` may be missing. -/
structure ImageWireResponse where
  artifacts : Option (List ImageArtifact)
deriving DecidableEq, Repr

/-- Embedding of `response_body["artifacts"][0]["base64"]` of
`image_playground/services.py`. -/
def parseImageResponse (w : ImageWireResponse) : Except PyFieldError String :=
  match w.artifacts with
  | none => .error (.keyError "artifacts")
  | some [] => .error (.indexError 0)
  | some (a :: _) =>
    match a.base64 with
    | none => .error (.keyError "base64")
    | some d => .ok d

/-- The `data` object of a Jurassic-2 completion. -/
structure J2Data where
  text : Option String
deriving DecidableEq, Repr

/-- One element of the `completions` array of a Jurassic-2 wire response. -/
structure J2Completion where
  data : Option J2Data
deriving DecidableEq, Repr

/-- The Jurassic-2 wire response body: `completions` may be missing. -/
structure J2WireResponse where
  completions : Option (List J2Completion)
deriving DecidableEq, Repr

/-- The newline normalization of `text_playground/jurassic2.py`: `if
completion.startswith("\n"): completion = completion[1:]`. -/
def j2StripLeadingNewline (t : String) : String :=
  if pyStartsWith t "\n" then pyTail t else t

/-- Embedding of the response handling of `text_playground/jurassic2.py`:
extract `response_body["completions"][0]["data"]["text"]`, then strip one
leading newline if present. -/
def parseJ2Response (w : J2WireResponse) : Except PyFieldError String :=
  match w.completions with
  | none => .error (.keyError "completions")
  | some [] => .error (.indexError 0)
  | some (c :: _) =>
    match c.data with
    | none => .error (.keyError "data")
    | some d =>
      match d.text with
      | none => .error (.keyError "text")
      | some t => .ok (j2StripLeadingNewline t)

/-- A Jurassic-2 wire response whose single completion carries text `t`. -/
def mkJ2Wire (t : String) : J2WireResponse := ⟨some [⟨some ⟨some t⟩⟩]⟩

/-! ## Image payload construction (`image_playground/services.py`) -/

/-- The fixed style allow-list `STYLES` of `image_playground/services.py`. -/
def STYLES : List String :=
  ["3d-model", "analog-film", "anime", "cinematic", "comic-book", "digital-art",
   "enhance", "fantasy-art", "isometric", "line-art", "low-poly",
   "modeling-compound", "neon-punk", "origami", "photographic", "pixel-art",
   "tile-texture"]

/-- The upstream payload built by `image_playground/services.py`:
`text_prompts`, the fixed `cfg_scale` and `steps`, and `style_preset` present
only when the requested style is in the allow-list. -/
structure ImagePayload where
  text_prompts : List String
  cfg_scale : Nat
  steps : Nat
  style_preset : Option String
deriving DecidableEq, Repr

/-- Embedding of the `prompt_config` construction of
`image_playground/services.py` (`invoke`, before the network call): the dict is
created with `cfg_scale = 20`, `steps = 100`, and `style_preset` is added only
when `style_preset in STYLES`; otherwise the field stays absent and no error is
raised. -/
def buildImagePayload (prompt stylePreset : String) : ImagePayload :=
  { text_prompts := [prompt]
    cfg_scale := 20
    steps := 100
    style_preset := if stylePreset ∈ STYLES then some stylePreset else none }

/-! ## Story playground (`story_playground/services.py`, `models.py`)

`random.choice` is embedded as an oracle index into the fixed candidate list
(`random.choice` draws such an index uniformly); Python truthiness of the
optional parameters (`theme if theme else ...`) makes both `None` and the
empty string fall back to the sampled value. -/

/-- The fixed `THEMES` candidate list of `story_playground/services.py`. -/
def THEMES : List String :=
  ["adventure", "mystery", "fantasy", "science fiction", "romance",
   "horror", "historical", "comedy", "drama", "fairy tale"]

/-- The fixed `GENRES` candidate list of `story_playground/services.py`. -/
def GENRES : List String :=
  ["action", "thriller", "dystopian", "utopian", "western",
   "cyberpunk", "steampunk", "magical realism", "urban fantasy", "space opera"]

/-- Embedding of `random.choice(l)`: the sampled element, the random draw being
supplied as the oracle index `i` (reduced modulo the list length, so every
index denotes an element). -/
def pyChoice (l : List String) (i : Nat) : String := l.getD (i % l.length) ""

/-- Embedding of the Python expression `provided if provided else sampled` on an
optional string parameter: both `None` and `""` are falsy and select the
sampled value. -/
def pyTruthySelect (provided : Option String) (sampled : String) : String :=
  match provided with
  | none => sampled
  | some t => if t == "" then sampled else t

/-- The `length_desc` branch of `generate_random_prompt` in
`story_playground/services.py`: `"short"` and `"long"` are recognized, any
other value falls through to the medium bucket. -/
def lengthDesc (length : String) : String :=
  if length == "short" then "a short story (about 500 words)"
  else if length == "long" then "a longer story (about 2000 words)"
  else "a medium-length story (about 1000 words)"

/-- The `char_desc` f-string of `generate_random_prompt`:
`featuring {characters} main character` plus an `s` exactly when
`characters > 1`. -/
def charDesc (characters : Int) : String :=
  "featuring " ++ toString characters ++ " main character" ++
    (if characters > 1 then "s" else "")

/-- The fixed instruction appended at the end of the story prompt. -/
def promptTailInstruction : String :=
  ". Include a creative title at the beginning of your response in the format 'Title: [Your Title]'."

/-- Embedding of `generate_random_prompt` of `story_playground/services.py`,
with the two `random.choice` draws supplied as oracle indices. -/
def generate_random_prompt (theme genre : Option String) (characters : Int)
    (length : String) (iTheme iGenre : Nat) : String :=
  let selectedTheme := pyTruthySelect theme (pyChoice THEMES iTheme)
  let selectedGenre := pyTruthySelect genre (pyChoice GENRES iGenre)
  "Write " ++ lengthDesc length ++ " in the " ++ selectedGenre ++
    " genre with a " ++ selectedTheme ++ " theme, " ++ charDesc characters ++
    promptTailInstruction

/-- Embedding of the title/story post-processing at the end of
`generate_story` in `story_playground/services.py`: split the generated text on
newlines; if the first line starts with `Title:` the title is that line with
every occurrence of `Title:` deleted and stripped, and the story is the
remaining lines rejoined and stripped; otherwise the title is the fixed
`"Untitled Story"` and the story is the full text.  (`split('\n')` never
returns an empty list, so the `headD` default is never used.) -/
def splitStoryText (storyText : String) : String × String :=
  let lines := pySplitNl storyText
  let titleLine := lines.headD ""
  if pyStartsWith titleLine "Title:" then
    (pyStrip (pyRemoveAll titleLine "Title:"), pyStrip (pyJoinNl (lines.drop 1)))
  else
    ("Untitled Story", storyText)

/-- Modelled from the spec: the title extraction as claim C5 words it — the
first line with the leading prefix `Title:` removed (once), then trimmed.
Kept only for refinement comparison against `splitStoryText`. -/
def specTitleRemoveOnce (titleLine : String) : String :=
  pyStrip ⟨titleLine.data.drop ("Title:".length)⟩

/-- Embedding of the `StoryRequest` pydantic model of
`story_playground/models.py`: every field is optional-with-default and carries
no validation constraint, so any integer `characters` value (including zero and
negative values) is accepted.  The float `temperature` field is irrelevant to
the claims and omitted. -/
structure StoryRequest where
  theme : Option String := none
  genre : Option String := none
  characters : Option Int := some 1
  length : String := "medium"
  maxTokens : Int := 1000
deriving DecidableEq, Repr

/-! ## Health endpoint (`health/routes.py`, `health/service.py`) -/

/-- One model summary extracted by `check_bedrock_health` from the
`list_foundation_models` response (`.get` reads: missing keys give `None`, the
modality lists default to `[]`). -/
structure ModelSummary where
  modelId : Option String
  modelName : Option String
  providerName : Option String
  inputModalities : List String
  outputModalities : List String
deriving DecidableEq, Repr

/-- One entry of the `errors` list in a health-check body. -/
structure HealthErrorEntry where
  type : String
  code : Option String
  message : String
  details : Option String
deriving DecidableEq, Repr

/-- The structured body built by `check_bedrock_health`. -/
structure HealthStatus where
  status : String
  region : String
  bedrock_client_initialized : Bool
  available_models : List ModelSummary
  model_count : Nat
  errors : List HealthErrorEntry
deriving DecidableEq, Repr

/-- An exception caught inside `check_bedrock_health`: the four `except`
clauses of `health/service.py`. -/
inductive HealthExc where
  | noCredentials
  | incompleteCredentials (strE : String)
  | clientError (code msg : String)
  | unexpected (typeName msg : String)
deriving DecidableEq, Repr

/-- The `errors` entry appended by the matching `except` clause of
`check_bedrock_health`. -/
def healthErrorEntry : HealthExc → HealthErrorEntry
  | .noCredentials =>
    ⟨"NoCredentialsError", none, "No AWS credentials found",
      some "AWS credentials not configured. Check AWS_ACCESS_KEY_ID and AWS_SECRET_ACCESS_KEY environment variables or ~/.aws/credentials file."⟩
  | .incompleteCredentials strE =>
    ⟨"PartialCredentialsError", none, "Incomplete AWS credentials: " ++ strE, some strE⟩
  | .clientError code msg => ⟨"ClientError", some code, msg, none⟩
  | .unexpected typeName msg => ⟨typeName, none, msg, none⟩

/-- Outcome of the boto3 interactions inside `check_bedrock_health`: the
`boto3.client` constructor raises, or the `list_foundation_models` call raises
(after `bedrock_client_initialized` was set), or the call succeeds. -/
inductive HealthOutcome where
  | initRaise (e : HealthExc)
  | listRaise (e : HealthExc)
  | ok (models : List ModelSummary)
deriving DecidableEq, Repr

/-- Embedding of `check_bedrock_health` of `health/service.py`: the function
never raises for the modelled failure points — every caught exception turns the
status to `"unhealthy"` and appends a structured error entry, and the dict is
returned normally. -/
def check_bedrock_health (region : String) (outcome : HealthOutcome) : HealthStatus :=
  match outcome with
  | .ok models =>
    { status := "healthy", region := region, bedrock_client_initialized := true,
      available_models := models, model_count := models.length, errors := [] }
  | .initRaise e =>
    { status := "unhealthy", region := region, bedrock_client_initialized := false,
      available_models := [], model_count := 0, errors := [healthErrorEntry e] }
  | .listRaise e =>
    { status := "unhealthy", region := region, bedrock_client_initialized := true,
      available_models := [], model_count := 0, errors := [healthErrorEntry e] }

/-- Result of the `health_check` route: a JSON body (HTTP 200) or an
`HTTPException`. -/
inductive HealthHttpResult where
  | ok (body : HealthStatus)
  | httpError (status : Nat) (detail : String)
deriving DecidableEq, Repr

/-- HTTP status of a `health_check` route result (FastAPI returns a plain body
with status 200). -/
def healthHttpStatus : HealthHttpResult → Nat
  | .ok _ => 200
  | .httpError s _ => s

/-- Embedding of the `health_check` handler of `health/routes.py`: the service
result is returned with HTTP 200 whether healthy or unhealthy; only an
exception escaping `check_bedrock_health` itself (modelled as the `.error` case,
carrying `str(e)`) becomes `HTTPException(500, ...)`. -/
def health_check (serviceCall : Except String HealthStatus) : HealthHttpResult :=
  match serviceCall with
  | .ok result => .ok result
  | .error strE =>
    .httpError 500 ("Health check failed with unexpected error: " ++ strE)

/-! ## Helper lemmas on `containsStr` -/

theorem containsStr_append_left (a b : String) : containsStr (a ++ b) b :=
  ⟨a, "", by simp⟩

theorem containsStr_append_right (a : String) {s sub : String} (h : containsStr s sub) :
    containsStr (a ++ s) sub := by
  obtain ⟨p, q, rfl⟩ := h
  exact ⟨a ++ p, q, by simp [String.append_assoc]⟩

theorem containsStr_code_msg (c sep m : String) : containsStr (c ++ sep ++ m) m :=
  ⟨c ++ sep, "", by simp [String.append_assoc]⟩

theorem containsStr_clientErrorStr (code opName msg : String) :
    containsStr (clientErrorStr code opName msg) msg := by
  unfold clientErrorStr
  exact containsStr_append_left _ _

/-! ## Claims C1 and C2: error classification at the route boundary -/

/-- Claim C1, counterexample: the spec's ordered policy sends a provider error
code equal to `ResourceNotFoundException` to NotFound (HTTP 404), but the chat
invoke route classifies it as 500 with `"code: message"` detail, like any
non-access-denied provider code; the spec-worded classifier and the code
disagree at this input. -/
theorem resourceNotFound_maps_to_internal_500 :
    chatClassify (.clientError "ResourceNotFoundException"
        "Could not resolve the foundation model" "InvokeModel")
      = ⟨500, "ResourceNotFoundException: Could not resolve the foundation model"⟩
  ∧ specClassify (.clientError "ResourceNotFoundException"
        "Could not resolve the foundation model" "InvokeModel")
      = ⟨404, "Could not resolve the foundation model"⟩
  ∧ (500 : Nat) ≠ 404 := by
  refine ⟨by decide, by decide, by decide⟩

/-- Claim C1, amended: at the route boundary of the chat, text, image and
foundation-models routes the error classification is the same: a provider error
code equal to `AccessDeniedException` maps to 403 with the provider message,
any other provider code — including `ResourceNotFoundException` — maps to 500
with `"code: message"` in the detail, and an unrecognized exception maps to 500
with `"TypeName: message"` in the detail. -/
theorem invoke_routes_error_classification (code msg opName typeName tmsg : String)
    (h : code ≠ "AccessDeniedException") :
    chatClassify (.clientError "AccessDeniedException" msg opName) = ⟨403, msg⟩
  ∧ textClassify (.clientError "AccessDeniedException" msg opName) = ⟨403, msg⟩
  ∧ imageClassify (.clientError "AccessDeniedException" msg opName) = ⟨403, msg⟩
  ∧ foundationModelsClassify (.clientError "AccessDeniedException" msg opName) = ⟨403, msg⟩
  ∧ chatClassify (.clientError code msg opName) = ⟨500, code ++ ": " ++ msg⟩
  ∧ textClassify (.clientError code msg opName) = ⟨500, code ++ ": " ++ msg⟩
  ∧ imageClassify (.clientError code msg opName) = ⟨500, code ++ ": " ++ msg⟩
  ∧ foundationModelsClassify (.clientError code msg opName) = ⟨500, code ++ ": " ++ msg⟩
  ∧ chatClassify (.pyExc typeName tmsg) = ⟨500, typeName ++ ": " ++ tmsg⟩
  ∧ textClassify (.pyExc typeName tmsg) = ⟨500, typeName ++ ": " ++ tmsg⟩
  ∧ imageClassify (.pyExc typeName tmsg) = ⟨500, typeName ++ ": " ++ tmsg⟩
  ∧ foundationModelsClassify (.pyExc typeName tmsg) = ⟨500, typeName ++ ": " ++ tmsg⟩ := by
  have hb : (code == "AccessDeniedException") = false := beq_eq_false_iff_ne.mpr h
  refine ⟨?_, ?_, ?_, ?_, ?_, ?_, ?_, ?_, rfl, rfl, rfl, rfl⟩ <;>
    simp [chatClassify, textClassify, imageClassify, foundationModelsClassify, hb]

/-- Witness for the amended claim C1 at a concrete throttling error. -/
theorem invoke_routes_error_classification_witness :
    chatClassify (.clientError "ThrottlingException" "Too many requests" "InvokeModel")
      = ⟨500, "ThrottlingException: Too many requests"⟩ :=
  (invoke_routes_error_classification "ThrottlingException" "Too many requests"
    "InvokeModel" "ValueError" "boom" (by decide)).2.2.2.2.1

/-- Claim C2, counterexample: on a provider `AccessDeniedException` the story
route replaces the provider diagnostic with the fixed text
`"Access denied to AWS Bedrock"`; the original message does not occur in the
detail at all. -/
theorem story_accessDenied_detail_is_generic :
    storyClassify (.clientError "AccessDeniedException"
        "User: arn:aws:iam::123456789012:user/dev is not authorized to perform: bedrock:InvokeModel"
        "InvokeModel")
      = ⟨403, "Access denied to AWS Bedrock"⟩
  ∧ ¬ containsStr "Access denied to AWS Bedrock"
      "User: arn:aws:iam::123456789012:user/dev is not authorized to perform: bedrock:InvokeModel" := by
  refine ⟨by decide, fun h => absurd (length_of_containsStr h) (by decide)⟩

/-- Claim C2, amended: the chat, text, image and foundation-models invoke
routes always surface the original diagnostic message verbatim inside the
detail; the story route also does — the 500 branches return `str(e)`, which
carries the provider message — except on a provider `AccessDeniedException`,
where the detail is the fixed text `"Access denied to AWS Bedrock"`. -/
theorem error_detail_preserves_diagnostic (e : UpstreamError)
    (code msg opName typeName tmsg : String) (h : code ≠ "AccessDeniedException") :
    containsStr (chatClassify e).detail (diagMsg e)
  ∧ containsStr (textClassify e).detail (diagMsg e)
  ∧ containsStr (imageClassify e).detail (diagMsg e)
  ∧ containsStr (foundationModelsClassify e).detail (diagMsg e)
  ∧ containsStr (storyClassify (.clientError code msg opName)).detail msg
  ∧ (storyClassify (.pyExc typeName tmsg)).detail = tmsg
  ∧ (storyClassify (.clientError "AccessDeniedException" msg opName)).detail
      = "Access denied to AWS Bedrock" := by
  have hb : (code == "AccessDeniedException") = false := beq_eq_false_iff_ne.mpr h
  have hmain : ∀ f : UpstreamError → HttpError,
      (∀ c m o, f (.clientError c m o)
        = if c == "AccessDeniedException" then ⟨403, m⟩ else ⟨500, c ++ ": " ++ m⟩) →
      (∀ ty m, f (.pyExc ty m) = ⟨500, ty ++ ": " ++ m⟩) →
      containsStr (f e).detail (diagMsg e) := by
    intro f hcl hpy
    cases e with
    | clientError c m o =>
      rw [hcl]
      by_cases hc : (c == "AccessDeniedException") = true
      · rw [if_pos hc]
        exact containsStr_self m
      · rw [if_neg hc]
        exact containsStr_code_msg c ": " m
    | pyExc ty m =>
      rw [hpy]
      exact containsStr_code_msg ty ": " m
  refine ⟨hmain chatClassify (fun _ _ _ => rfl) (fun _ _ => rfl),
    hmain textClassify (fun _ _ _ => rfl) (fun _ _ => rfl),
    hmain imageClassify (fun _ _ _ => rfl) (fun _ _ => rfl),
    hmain foundationModelsClassify (fun _ _ _ => rfl) (fun _ _ => rfl), ?_, rfl, by simp [storyClassify]⟩
  · show containsStr (storyClassify (.clientError code msg opName)).detail msg
    simp only [storyClassify, hb, Bool.false_eq_true, if_false]
    exact containsStr_clientErrorStr code opName msg

/-- Witness for the amended claim C2 at a concrete validation error. -/
theorem error_detail_preserves_diagnostic_witness :
    containsStr (chatClassify (.clientError "ValidationException" "bad body" "InvokeModel")).detail
      (diagMsg (.clientError "ValidationException" "bad body" "InvokeModel")) :=
  (error_detail_preserves_diagnostic
    (.clientError "ValidationException" "bad body" "InvokeModel")
    "ValidationException" "bad body" "InvokeModel" "ValueError" "boom" (by decide)).1

/-! ## Claim C3: text-route model dispatch -/

/-- Claim C3: a POST to the text-invoke route with a `modelId` that is neither
the Claude 3.5 Sonnet id nor the Jurassic-2 id fails with HTTP 400, the detail
mentions the unsupported id, and no adapter is invoked (the result is the same
for every binding, and the invoked-adapter list is empty); each of the two
supported identifiers selects and invokes exactly one adapter. -/
theorem text_route_dispatch (modelId : String)
    (binding : TextAdapter → Except UpstreamError String)
    (h1 : modelId ≠ claudeTextModelId) (h2 : modelId ≠ jurassic2ModelId) :
    textInvokeRoute modelId binding
      = (.error ⟨400, "Unsupported model: " ++ modelId⟩, [])
  ∧ containsStr ("Unsupported model: " ++ modelId) modelId
  ∧ textInvokeRoute claudeTextModelId binding
      = (applyClassify textClassify (binding .claude), [.claude])
  ∧ textInvokeRoute jurassic2ModelId binding
      = (applyClassify textClassify (binding .jurassic2), [.jurassic2])
  ∧ (textInvokeRoute claudeTextModelId binding).2 = [.claude]
  ∧ (textInvokeRoute jurassic2ModelId binding).2 = [.jurassic2] := by
  have hb1 : (modelId == claudeTextModelId) = false := beq_eq_false_iff_ne.mpr h1
  have hb2 : (modelId == jurassic2ModelId) = false := beq_eq_false_iff_ne.mpr h2
  have hj : (jurassic2ModelId == claudeTextModelId) = false := by decide
  refine ⟨?_, containsStr_append_left _ _, ?_, ?_, ?_, ?_⟩ <;>
    simp [textInvokeRoute, hb1, hb2, hj]

/-- Witness for claim C3 at a concrete unsupported model id and a binding that
records nothing because it is never reached. -/
theorem text_route_dispatch_witness :
    textInvokeRoute "amazon.titan-text-express-v1" (fun _ => .ok "done")
      = (.error ⟨400, "Unsupported model: amazon.titan-text-express-v1"⟩, []) :=
  (text_route_dispatch "amazon.titan-text-express-v1" (fun _ => .ok "done")
    (by decide) (by decide)).1

/-! ## Claim C4: parse failures on empty/missing content and artifacts -/

/-- Claim C4: when the chat-style `content` array or the image `artifacts`
array is missing or empty, response parsing fails — with the `KeyError` /
`IndexError` on that very field that realizes the spec's
`MalformedUpstreamResponse` — while a response whose first element carries the
expected field parses successfully. -/
theorem wire_parse_fails_on_empty_or_missing :
    parseChatResponse ⟨none⟩ = .error (.keyError "content")
  ∧ parseChatResponse ⟨some []⟩ = .error (.indexError 0)
  ∧ parseImageResponse ⟨none⟩ = .error (.keyError "artifacts")
  ∧ parseImageResponse ⟨some []⟩ = .error (.indexError 0)
  ∧ (∀ (t : String) (rest : List ChatContentBlock),
      parseChatResponse ⟨some (⟨some t⟩ :: rest)⟩ = .ok t)
  ∧ (∀ (d : String) (rest : List ImageArtifact),
      parseImageResponse ⟨some (⟨some d⟩ :: rest)⟩ = .ok d) :=
  ⟨rfl, rfl, rfl, rfl, fun _ _ => rfl, fun _ _ => rfl⟩

/-! ## Claim C7: Jurassic-2 leading-newline normalization -/

/-- Claim C7: the Jurassic-2 adapter strips exactly one leading newline from
the extracted completion text when one is present and leaves the text unchanged
otherwise: `"\nHello"` parses to `"Hello"`, `"\n\nHello"` parses to
`"\nHello"`, a text with no leading newline is returned unchanged, and for
every `u` the text `"\n" ++ u` is normalized to exactly `u`. -/
theorem jurassic2_strips_one_leading_newline (t : String)
    (h : pyStartsWith t "\n" = false) :
    parseJ2Response (mkJ2Wire "\nHello") = .ok "Hello"
  ∧ parseJ2Response (mkJ2Wire "\n\nHello") = .ok "\nHello"
  ∧ parseJ2Response (mkJ2Wire t) = .ok t
  ∧ (∀ u : String, j2StripLeadingNewline ("\n" ++ u) = u) := by
  refine ⟨rfl, rfl, ?_, ?_⟩
  · simp [parseJ2Response, mkJ2Wire, j2StripLeadingNewline, h]
  · intro u
    have hd : ("\n" ++ u).data = '\n' :: u.data := by
      rw [String.data_append]
      rfl
    have h1 : pyStartsWith ("\n" ++ u) "\n" = true := by
      show matchesAt "\n".data ("\n" ++ u).data = true
      rw [hd]
      rfl
    have h2 : pyTail ("\n" ++ u) = u := by
      show String.mk (("\n" ++ u).data.drop 1) = u
      rw [hd]
      cases u
      rfl
    simp [j2StripLeadingNewline, h1, h2]

/-- Witness for claim C7 at a text with no leading newline. -/
theorem jurassic2_strips_one_leading_newline_witness :
    parseJ2Response (mkJ2Wire "Hello") = .ok "Hello" :=
  (jurassic2_strips_one_leading_newline "Hello" (by decide)).2.2.1

/-! ## Claim C8: image payload style allow-list -/

/-- Claim C8: the image adapter's payload carries `style_preset` exactly when
the requested style is in the fixed 17-entry allow-list (e.g. `"anime"`), the
field is silently absent for any other value (e.g. `"not-a-style"`) with no
error raised (the construction is total), and every payload carries the fixed
`cfg_scale = 20` and `steps = 100`. -/
theorem image_payload_style_allowlist (prompt sp spOut : String)
    (hin : sp ∈ STYLES) (hout : spOut ∉ STYLES) :
    (buildImagePayload prompt sp).style_preset = some sp
  ∧ (buildImagePayload prompt spOut).style_preset = none
  ∧ (∀ p s : String, (buildImagePayload p s).cfg_scale = 20
      ∧ (buildImagePayload p s).steps = 100
      ∧ (buildImagePayload p s).text_prompts = [p])
  ∧ STYLES.length = 17
  ∧ (buildImagePayload prompt "anime").style_preset = some "anime"
  ∧ (buildImagePayload prompt "not-a-style").style_preset = none := by
  refine ⟨?_, ?_, fun p s => ⟨rfl, rfl, rfl⟩, by decide, ?_, ?_⟩
  · simp [buildImagePayload, hin]
  · simp [buildImagePayload, hout]
  · show (if ("anime" : String) ∈ STYLES then some ("anime" : String) else none) = some "anime"
    rw [if_pos (by decide)]
  · show (if ("not-a-style" : String) ∈ STYLES then some ("not-a-style" : String) else none) = none
    rw [if_neg (by decide)]

/-- Witness for claim C8 at the two styles named by the spec's test property. -/
theorem image_payload_style_allowlist_witness :
    (buildImagePayload "a house" "anime").style_preset = some "anime"
  ∧ (buildImagePayload "a house" "not-a-style").style_preset = none :=
  ⟨(image_payload_style_allowlist "a house" "anime" "not-a-style"
      (by decide) (by decide)).1,
   (image_payload_style_allowlist "a house" "anime" "not-a-style"
      (by decide) (by decide)).2.1⟩

/-! ## Claim C9: health endpoint reports softly -/

/-- Claim C9: every failure of client initialization, credentials, or the
list-models call is caught inside `check_bedrock_health`; the route then
returns the body with HTTP 200, status `"unhealthy"` and the failure recorded
as a structured error entry (client-initialized is false exactly when the
constructor itself raised); HTTP 500 arises only from an error escaping the
service function. -/
theorem health_check_soft_reporting (region strE : String) (e : HealthExc) :
    healthHttpStatus (health_check (.ok (check_bedrock_health region (.initRaise e)))) = 200
  ∧ healthHttpStatus (health_check (.ok (check_bedrock_health region (.listRaise e)))) = 200
  ∧ (check_bedrock_health region (.initRaise e)).status = "unhealthy"
  ∧ (check_bedrock_health region (.listRaise e)).status = "unhealthy"
  ∧ (check_bedrock_health region (.initRaise e)).errors = [healthErrorEntry e]
  ∧ (check_bedrock_health region (.listRaise e)).errors = [healthErrorEntry e]
  ∧ (check_bedrock_health region (.initRaise e)).bedrock_client_initialized = false
  ∧ (check_bedrock_health region (.listRaise e)).bedrock_client_initialized = true
  ∧ health_check (.error strE)
      = .httpError 500 ("Health check failed with unexpected error: " ++ strE) :=
  ⟨rfl, rfl, rfl, rfl, rfl, rfl, rfl, rfl, rfl⟩

/-! ## Claim C5: story title/body post-processing -/

/-- Claim C5, counterexample: the code computes the title with
`title_line.replace('Title:', '')`, which deletes every occurrence of
`Title:` in the first line, not just the leading prefix: on the first line
`"Title: Title: X"` the claim's description (prefix removed once, then
trimmed) gives `"Title: X"`, but the code gives `"X"`. -/
theorem story_title_removes_all_occurrences :
    (splitStoryText "Title: Title: X").1 = "X"
  ∧ specTitleRemoveOnce "Title: Title: X" = "Title: X"
  ∧ ("X" : String) ≠ "Title: X" := by
  refine ⟨by decide, by decide, by decide⟩

/-- Claim C5, amended: splitting the generated text on newlines, if the first
line begins with `Title:` then the title is that line with every occurrence of
`Title:` deleted and trimmed, and the story body is all subsequent lines
rejoined with newlines and trimmed; otherwise the title is the fixed
`"Untitled Story"` and the story body is the full text unchanged.  In
particular `"Title: Test Story\n\nThis is a test story."` yields title
`"Test Story"` and story `"This is a test story."`. -/
theorem story_split (s t : String)
    (hs : pyStartsWith ((pySplitNl s).headD "") "Title:" = true)
    (ht : pyStartsWith ((pySplitNl t).headD "") "Title:" = false) :
    splitStoryText s
      = (pyStrip (pyRemoveAll ((pySplitNl s).headD "") "Title:"),
         pyStrip (pyJoinNl ((pySplitNl s).drop 1)))
  ∧ splitStoryText t = ("Untitled Story", t)
  ∧ splitStoryText "Title: Test Story\n\nThis is a test story."
      = ("Test Story", "This is a test story.") := by
  refine ⟨?_, ?_, by decide⟩
  · simp only [splitStoryText]
    rw [hs]
    simp
  · simp only [splitStoryText]
    rw [ht]
    simp

/-- Witness for the amended claim C5 at one titled and one untitled text. -/
theorem story_split_witness :
    splitStoryText "Title: A\nB" = ("A", "B")
  ∧ splitStoryText "plain text" = ("Untitled Story", "plain text") :=
  ⟨(story_split "Title: A\nB" "plain text" (by decide) (by decide)).1,
   (story_split "Title: A\nB" "plain text" (by decide) (by decide)).2.1⟩

/-! ## Claim C6: story-prompt composer -/

/-- Any oracle draw of `random.choice` yields an element of the candidate
list. -/
theorem pyChoice_mem (l : List String) (i : Nat) (h : 0 < l.length) :
    pyChoice l i ∈ l := by
  have hi : i % l.length < l.length := Nat.mod_lt _ h
  unfold pyChoice
  rw [List.getD_eq_getElem?_getD, List.getElem?_eq_getElem hi]
  exact List.getElem_mem hi

set_option maxRecDepth 8192

/-- Claim C6, counterexample: a caller-supplied empty theme is falsy in the
Python expression `theme if theme else random.choice(THEMES)`, so the composer
samples a theme instead of using the given empty string: with theme `""` the
prompt equals the prompt built with no theme at all, embedding the sampled
`"adventure"` rather than `""`. -/
theorem empty_theme_falls_back_to_sampled :
    generate_random_prompt (some "") (some "western") 1 "medium" 0 0
      = generate_random_prompt none (some "western") 1 "medium" 0 0
  ∧ generate_random_prompt (some "") (some "western") 1 "medium" 0 0
      = "Write a medium-length story (about 1000 words) in the western genre with a adventure theme, featuring 1 main character. Include a creative title at the beginning of your response in the format 'Title: [Your Title]'."
  ∧ ("adventure" : String) ≠ "" := by
  refine ⟨rfl, by decide, by decide⟩

/-- Claim C6, amended: the composer produces the singular `1 main character`
(no trailing `s`) for one character and `3 main characters` for three; it
mentions `a short story (about 500 words)` for `"short"`, `a longer story
(about 2000 words)` for `"long"`, and `a medium-length story (about 1000
words)` for every other value (the default); it uses the caller-supplied theme
and genre when they are given and non-empty, and samples from the fixed
candidate lists when a field is unset — or empty, which Python truthiness
treats as unset (the `random.choice` draw is embedded as an oracle index and
always lands in the fixed list). -/
theorem story_prompt_composer (th gen lengthParam : String) (c : Int) (i j : Nat)
    (hth : th ≠ "") (hgen : gen ≠ "")
    (hlen1 : lengthParam ≠ "short") (hlen2 : lengthParam ≠ "long") :
    charDesc 1 = "featuring 1 main character"
  ∧ charDesc 3 = "featuring 3 main characters"
  ∧ lengthDesc "short" = "a short story (about 500 words)"
  ∧ lengthDesc "long" = "a longer story (about 2000 words)"
  ∧ lengthDesc lengthParam = "a medium-length story (about 1000 words)"
  ∧ generate_random_prompt (some th) (some gen) c lengthParam i j
      = "Write " ++ lengthDesc lengthParam ++ " in the " ++ gen ++ " genre with a "
        ++ th ++ " theme, " ++ charDesc c ++ promptTailInstruction
  ∧ generate_random_prompt none none c lengthParam i j
      = "Write " ++ lengthDesc lengthParam ++ " in the " ++ pyChoice GENRES j
        ++ " genre with a " ++ pyChoice THEMES i ++ " theme, " ++ charDesc c
        ++ promptTailInstruction
  ∧ pyChoice THEMES i ∈ THEMES
  ∧ pyChoice GENRES j ∈ GENRES
  ∧ generate_random_prompt (some "mystery") (some "thriller") 3 "short" 0 0
      = "Write a short story (about 500 words) in the thriller genre with a mystery theme, featuring 3 main characters. Include a creative title at the beginning of your response in the format 'Title: [Your Title]'." := by
  have hbt : (th == "") = false := beq_eq_false_iff_ne.mpr hth
  have hbg : (gen == "") = false := beq_eq_false_iff_ne.mpr hgen
  have hL1 : (lengthParam == "short") = false := beq_eq_false_iff_ne.mpr hlen1
  have hL2 : (lengthParam == "long") = false := beq_eq_false_iff_ne.mpr hlen2
  refine ⟨by decide, by decide, by decide, by decide, ?_, ?_, ?_,
    pyChoice_mem THEMES i (by decide), pyChoice_mem GENRES j (by decide), by decide⟩
  · simp [lengthDesc, hL1, hL2]
  · simp [generate_random_prompt, pyTruthySelect, hbt, hbg]
  · simp [generate_random_prompt, pyTruthySelect]

/-- Witness for the amended claim C6 at the parameters of the repo's own unit
test. -/
theorem story_prompt_composer_witness :
    generate_random_prompt (some "mystery") (some "thriller") 3 "short" 0 0
      = "Write a short story (about 500 words) in the thriller genre with a mystery theme, featuring 3 main characters. Include a creative title at the beginning of your response in the format 'Title: [Your Title]'." :=
  (story_prompt_composer "mystery" "thriller" "medium" 3 0 0
    (by decide) (by decide) (by decide) (by decide)).2.2.2.2.2.2.2.2.2

/-! ## Claim C10: pluralization for all integer character counts -/

/-- Claim C10: the request model accepts any integer `characters` value
(including zero and negative values — the pydantic field carries no
constraint), and the composer produces the singular `featuring {characters}
main character` exactly when `characters ≤ 1`, appending the plural `s`
exactly when `characters > 1`; in particular `characters = 0` yields
`featuring 0 main character`. -/
theorem char_count_pluralization (c c2 : Int) (hc : c ≤ 1) (h2 : 1 < c2) :
    charDesc c = "featuring " ++ toString c ++ " main character"
  ∧ charDesc c2 = "featuring " ++ toString c2 ++ " main character" ++ "s"
  ∧ charDesc 0 = "featuring 0 main character"
  ∧ charDesc (-2) = "featuring -2 main character"
  ∧ ({ characters := some 0 } : StoryRequest).characters = some 0
  ∧ ({ characters := some (-2) } : StoryRequest).characters = some (-2) := by
  have hnc : ¬ (c > 1) := by omega
  refine ⟨?_, ?_, by decide, by decide, rfl, rfl⟩
  · simp [charDesc, hnc]
  · simp [charDesc, h2]

/-- Witness for claim C10 at zero and three characters. -/
theorem char_count_pluralization_witness :
    charDesc 0 = "featuring " ++ toString (0 : Int) ++ " main character"
  ∧ charDesc 3 = "featuring " ++ toString (3 : Int) ++ " main character" ++ "s" :=
  ⟨(char_count_pluralization 0 3 (by decide) (by decide)).1,
   (char_count_pluralization 0 3 (by decide) (by decide)).2.1⟩

end FMPlayground
